import Mathlib

/-!
Verification of the networking-ovn control-plane translator core.

Shallow embedding, in Lean 4, of the pure computations and the
transaction-level effects of:
  * networking_ovn/common/utils.py      (naming helpers, SNAT default)
  * networking_ovn/common/ovn_client.py (port security addresses, DHCP
    option synthesis, address-set diffing, floating-IP NAT reconciliation)
  * networking_ovn/l3/l3_ovn.py         (floating-IP disassociation,
    gateway-chassis candidate computation)

Python dicts become structures or association lists, Python sets become
`Finset`/deduplicated lists, exceptions become `Except`, and the external
OVSDB interface (`_nb_idl`/`_sb_idl`) becomes explicit function parameters
or explicit state (a router's list of NAT rules, the enqueued commands of
a transaction).
-/

namespace NetworkingOvn

/-! ## common/utils.py -/

/-- Python `str.replace('-', '_')`: a single-character pattern and
replacement, hence a character-wise map. -/
def pyReplaceDash (s : String) : String :=
  ⟨s.data.map (fun c => if c = '-' then '_' else c)⟩

/-- `utils.ovn_name`: the OVN entry for a Neutron resource is named
`neutron-<UUID>`. -/
def ovn_name (id : String) : String := "neutron-" ++ id

/-- `utils.ovn_lrouter_port_name`: logical-router-port name `lrp-<UUID>`. -/
def ovn_lrouter_port_name (id : String) : String := "lrp-" ++ id

/-- `utils.ovn_addrset_name`: `('as-%s-%s' % (ip_version, sg_id)).replace('-', '_')`. -/
def ovn_addrset_name (sg_id ip_version : String) : String :=
  pyReplaceDash ("as-" ++ ip_version ++ "-" ++ sg_id)

/-- The `external_gateway_info` dict of a router: the only key this core
reads from it is `enable_snat`, which may be absent. -/
structure ExternalGatewayInfo where
  enable_snat : Option Bool
  deriving Repr, DecidableEq

/-- A router as read by `utils.is_snat_enabled`: the `external_gateway_info`
key may be absent from the router dict. -/
structure RouterDict where
  external_gateway_info : Option ExternalGatewayInfo
  deriving Repr, DecidableEq

/-- `utils.is_snat_enabled`:
`router.get(l3.EXTERNAL_GW_INFO, {}).get('enable_snat', True)`. -/
def is_snat_enabled (router : RouterDict) : Bool :=
  match router.external_gateway_info with
  | none => true
  | some gw => gw.enable_snat.getD true

/-- Port fixed-IP entry; `ip_address_version` carries the result of the
external `netaddr.IPAddress(ip).version` alongside the address text. -/
structure FixedIp where
  subnet_id : String
  ip_address : String
  ip_address_version : Nat
  deriving Repr, DecidableEq

/-- An allowed-address pair of a port. -/
structure AAPair where
  mac_address : String
  ip_address : String
  deriving Repr, DecidableEq

/-- A Neutron port, restricted to the fields this development reads.
`port_security_enabled` is `port.get(psec.PORTSECURITY)`. -/
structure Port where
  port_security_enabled : Bool
  device_owner : String
  mac_address : String
  fixed_ips : List FixedIp
  allowed_address_pairs : List AAPair
  security_groups : List String
  deriving Repr, DecidableEq

/-- Python `str.startswith`, computed on the character lists. -/
def pyStartsWith (s pre : String) : Bool :=
  pre.data.isPrefixOf s.data

/-- `utils.is_lsp_trusted`: `n_utils.is_port_trusted(port) if
port.get('device_owner') else False`, where the external
`is_port_trusted` checks the `network:` device-owner prefix. -/
def is_lsp_trusted (p : Port) : Bool :=
  if p.device_owner ≠ "" then pyStartsWith p.device_owner "network:" else false

/-- `utils.get_lsp_security_groups`: trusted ports report no security
groups unless `skip_trusted_port` is disabled (the delete path). -/
def get_lsp_security_groups (p : Port) (skip_trusted_port : Bool) : List String :=
  if skip_trusted_port && is_lsp_trusted p then [] else p.security_groups

end NetworkingOvn

namespace NetworkingOvn

/-! ## Claims C8 and C9 -/

/-- C8: `ovn_addrset_name(sg, ip_version)` is a pure function (deterministic
by construction), its value is the string `as-<ip version>-<sg>` with every
`-` replaced by `_`, and for any security-group id the `ip4` name differs
from the `ip6` name. -/
theorem C8_ovn_addrset_name_format_and_no_collision (sg : String) :
    ovn_addrset_name sg "ip4" = pyReplaceDash ("as-ip4-" ++ sg) ∧
    ovn_addrset_name sg "ip6" = pyReplaceDash ("as-ip6-" ++ sg) ∧
    ovn_addrset_name sg "ip4" ≠ ovn_addrset_name sg "ip6" := by
  refine ⟨rfl, rfl, ?_⟩
  intro h
  have h' : ("as-ip4-" ++ sg).data.map (fun c => if c = '-' then '_' else c) =
      ("as-ip6-" ++ sg).data.map (fun c => if c = '-' then '_' else c) :=
    congrArg String.data h
  simp [String.data_append] at h'

/-- C9: SNAT defaults to enabled — when the router has no
`external_gateway_info`, or that info omits `enable_snat`,
`is_snat_enabled` returns `True`. -/
theorem C9_is_snat_enabled_default_true (r : RouterDict)
    (h : r.external_gateway_info = none ∨
         ∃ gw, r.external_gateway_info = some gw ∧ gw.enable_snat = none) :
    is_snat_enabled r = true := by
  rcases h with h | ⟨gw, hgw, hsnat⟩
  · simp [is_snat_enabled, h]
  · simp [is_snat_enabled, hgw, hsnat, Option.getD]

/-- Witness for C9 at a concrete router with no gateway info and at one
whose gateway info omits the flag. -/
theorem C9_is_snat_enabled_default_true_witness :
    is_snat_enabled ⟨none⟩ = true ∧ is_snat_enabled ⟨some ⟨none⟩⟩ = true :=
  ⟨C9_is_snat_enabled_default_true ⟨none⟩ (Or.inl rfl),
   C9_is_snat_enabled_default_true ⟨some ⟨none⟩⟩ (Or.inr ⟨⟨none⟩, rfl, rfl⟩)⟩

end NetworkingOvn

namespace NetworkingOvn

/-! ## DHCP option synthesis (ovn_client.py) -/

/-- A host route entry of a subnet. -/
structure HostRoute where
  destination : String
  nexthop : String
  deriving Repr, DecidableEq

/-- A Neutron subnet, restricted to the fields the DHCP synthesizer reads.
`gateway_ip` is the dict value, which may be `None`. -/
structure Subnet where
  id : String
  cidr : String
  ip_version : Nat
  enable_dhcp : Bool
  gateway_ip : Option String
  dns_nameservers : List String
  host_routes : List HostRoute
  ipv6_address_mode : Option String
  deriving Repr, DecidableEq

/-- A Neutron network, restricted to the fields the DHCP synthesizer reads. -/
structure Network where
  id : String
  mtu : Nat
  deriving Repr, DecidableEq

/-- Python truthiness of an optional string: `None` and `''` are falsy. -/
def optStrTruthy : Option String → Bool
  | none => false
  | some s => s != ""

/-- Modelled from the spec: `metadata_agent.METADATA_DEFAULT_IP`, the
well-known metadata-service address routed via the metadata port
(`networking_ovn/agent/metadata/agent.py` is not under src). -/
def METADATA_DEFAULT_IP : String := "169.254.169.254"

/-- Modelled from the spec: `ovn_const.DHCPV6_STATELESS_OPT`, the DHCP
option name marking a stateless DHCPv6 row, set to the string `true`
(`networking_ovn/common/constants.py` is not under src; the spec names the
`dhcpv6_stateless` option). -/
def DHCPV6_STATELESS_OPT : String := "dhcpv6_stateless"

/-- Python `', '.join(xs)`. -/
def joinCommaSpace : List String → String
  | [] => ""
  | [x] => x
  | x :: y :: xs => x ++ ", " ++ joinCommaSpace (y :: xs)

/-- Concatenation of a list of strings, used to describe what the
route-accumulation loop of `_get_ovn_dhcpv4_opts` builds. -/
def joinAll : List String → String
  | [] => ""
  | x :: xs => x ++ joinAll xs

/-- The fragment `"%s/32,%s, " % (METADATA_DEFAULT_IP, metadata_port_ip)`
prepended to the classless static routes when a metadata port IP is
injected. -/
def metadataRoutePart : Option String → String
  | some m => METADATA_DEFAULT_IP ++ "/32," ++ m ++ ", "
  | none => ""

/-- The fragment `"%s,%s, " % (route['destination'], route['nexthop'])`
appended for each configured host route. -/
def fmtRoute (r : HostRoute) : String :=
  r.destination ++ "," ++ r.nexthop ++ ", "

/-- `OVNClient._get_ovn_dhcpv4_opts`. Nondeterministic externals are passed
in explicitly: `default_lease_time` is the configured lease time and
`random_server_mac` stands for `n_net.get_random_mac(...)`, used only when
no `server_mac` is supplied. Returns the options dict as an insertion-order
association list. -/
def get_ovn_dhcpv4_opts (subnet : Subnet) (network : Network)
    (server_mac : Option String) (metadata_port_ip : Option String)
    (default_lease_time : String) (random_server_mac : String) :
    List (String × String) :=
  if !optStrTruthy subnet.gateway_ip then []
  else
    let gw := subnet.gateway_ip.getD ""
    let options := [("server_id", gw), ("lease_time", default_lease_time),
                    ("mtu", toString network.mtu), ("router", gw),
                    ("server_mac", match server_mac with
                                   | some m => m
                                   | none => random_server_mac)]
    let options := options ++
      (if subnet.dns_nameservers ≠ [] then
        [("dns_server",
          "\x7b" ++ joinCommaSpace subnet.dns_nameservers ++ "\x7d")]
       else [])
    let classless_static_routes := subnet.host_routes.foldl
      (fun acc r => acc ++ fmtRoute r)
      ("\x7b" ++ metadataRoutePart metadata_port_ip)
    if classless_static_routes ≠ "\x7b" then
      options ++ [("classless_static_route",
                   classless_static_routes ++ "0.0.0.0/0," ++ gw ++ "\x7d")]
    else options

/-- `OVNClient._get_ovn_dhcpv6_opts`; `random_server_id` stands for the
generated MAC used when no `server_id` is supplied. -/
def get_ovn_dhcpv6_opts (subnet : Subnet) (server_id : Option String)
    (random_server_id : String) : List (String × String) :=
  let opts := [("server_id", match server_id with
                             | some s => s
                             | none => random_server_id)]
  let opts := opts ++
    (if subnet.dns_nameservers ≠ [] then
      [("dns_server",
        "\x7b" ++ joinCommaSpace subnet.dns_nameservers ++ "\x7d")]
     else [])
  opts ++
    (if subnet.ipv6_address_mode = some "dhcpv6-stateless" then
      [(DHCPV6_STATELESS_OPT, "true")]
     else [])

/-- The row content built by `OVNClient._get_ovn_dhcp_options`. -/
structure DhcpOptionsContent where
  cidr : String
  options : List (String × String)
  external_ids : List (String × String)
  deriving Repr, DecidableEq

/-- `OVNClient._get_ovn_dhcp_options`: dispatches to the v4 or v6
synthesizer only when DHCP is enabled on the subnet. -/
def get_ovn_dhcp_options (subnet : Subnet) (network : Network)
    (server_mac : Option String) (metadata_port_ip : Option String)
    (default_lease_time : String) (random_server_mac : String) :
    DhcpOptionsContent :=
  { cidr := subnet.cidr
    options :=
      if subnet.enable_dhcp then
        if subnet.ip_version = 4 then
          get_ovn_dhcpv4_opts subnet network server_mac metadata_port_ip
            default_lease_time random_server_mac
        else
          get_ovn_dhcpv6_opts subnet server_mac random_server_mac
      else []
    external_ids := [("subnet_id", subnet.id)] }

/-- Lookup in an options dict (association list, first binding wins). -/
def lookupOpt (opts : List (String × String)) (k : String) : Option String :=
  (opts.find? (fun p => p.1 == k)).map (fun p => p.2)

/-- A nonempty string has nonzero length. -/
theorem length_ne_zero_of_ne_empty (s : String) (h : s ≠ "") : s.length ≠ 0 := by
  intro h0
  apply h
  cases s with
  | mk data =>
    cases data with
    | nil => rfl
    | cons a l => simp [String.length] at h0

/-- Appending a nonempty string on the left yields a nonempty string. -/
theorem append_ne_empty_left (s t : String) (h : s ≠ "") : s ++ t ≠ "" := by
  intro heq
  have hl := congrArg String.length heq
  rw [String.length_append] at hl
  have h0 : ("" : String).length = 0 := rfl
  exact length_ne_zero_of_ne_empty s h (by omega)

/-- The accumulated classless-route string differs from the bare opening
brace exactly when something was appended after it. -/
theorem brace_append_ne (s : String) (h : s ≠ "") :
    ("\x7b" ++ s : String) ≠ "\x7b" := by
  intro heq
  have hl := congrArg String.length heq
  rw [String.length_append] at hl
  exact length_ne_zero_of_ne_empty s h (by omega)

/-- Each host-route fragment is nonempty (it contains a comma). -/
theorem fmtRoute_ne_empty (r : HostRoute) : fmtRoute r ≠ "" := by
  intro heq
  have hl := congrArg String.length heq
  simp only [fmtRoute, String.length_append] at hl
  have h2 : (", " : String).length = 2 := rfl
  have h1 : ("," : String).length = 1 := rfl
  have h0 : ("" : String).length = 0 := rfl
  omega

/-- The injected metadata fragment is nonempty. -/
theorem metadataRoutePart_some_ne_empty (m : String) :
    metadataRoutePart (some m) ≠ "" := by
  intro heq
  have hl := congrArg String.length heq
  simp only [metadataRoutePart, String.length_append] at hl
  have h1 : METADATA_DEFAULT_IP.length = 15 := rfl
  have h2 : ("/32," : String).length = 4 := rfl
  have h3 : (", " : String).length = 2 := rfl
  have h0 : ("" : String).length = 0 := rfl
  omega

/-- The route-accumulation loop of `_get_ovn_dhcpv4_opts` concatenates the
formatted host routes, in list order, after its initial accumulator. -/
theorem foldl_fmtRoute (l : List HostRoute) (acc : String) :
    l.foldl (fun a r => a ++ fmtRoute r) acc = acc ++ joinAll (l.map fmtRoute) := by
  induction l generalizing acc with
  | nil => simp [joinAll, String.append_empty]
  | cons r rs ih => simp [joinAll, ih, String.append_assoc]

end NetworkingOvn

namespace NetworkingOvn

/-! ## Claims C10 and C7 -/

/-- C10: for a DHCP-enabled IPv4 subnet whose `gateway_ip` is unset
(falsy), the synthesized DHCPv4 option map is empty — no option at all is
produced. -/
theorem C10_dhcpv4_opts_empty_without_gateway (subnet : Subnet)
    (network : Network) (server_mac metadata_port_ip : Option String)
    (lease_time random_mac : String)
    (hdhcp : subnet.enable_dhcp = true) (hv : subnet.ip_version = 4)
    (hgw : optStrTruthy subnet.gateway_ip = false) :
    (get_ovn_dhcp_options subnet network server_mac metadata_port_ip
      lease_time random_mac).options = [] := by
  simp [get_ovn_dhcp_options, hdhcp, hv, get_ovn_dhcpv4_opts, hgw]

/-- Witness for C10 at a concrete DHCP-enabled v4 subnet with no gateway. -/
theorem C10_dhcpv4_opts_empty_without_gateway_witness :
    (get_ovn_dhcp_options ⟨"s1", "10.0.0.0/24", 4, true, none, [], [], none⟩
      ⟨"n1", 1500⟩ none none "43200" "01:02:03:04:05:06").options = [] :=
  C10_dhcpv4_opts_empty_without_gateway _ _ none none _ _ rfl rfl rfl

/-- C7: for a DHCP-enabled IPv4 subnet with a (truthy) gateway IP, the
`router` option is always the gateway IP; the `classless_static_route`
option is present exactly when a metadata route is injected or host routes
exist, and then its value is the metadata route first, the configured host
routes in order, and a trailing `0.0.0.0/0,<gateway>` default route. -/
theorem C7_dhcpv4_classless_route_structure (subnet : Subnet)
    (network : Network) (server_mac metadata_port_ip : Option String)
    (lease_time random_mac gw : String)
    (hdhcp : subnet.enable_dhcp = true) (hv : subnet.ip_version = 4)
    (hgw : subnet.gateway_ip = some gw) (hne : gw ≠ "") :
    lookupOpt ((get_ovn_dhcp_options subnet network server_mac
      metadata_port_ip lease_time random_mac).options) "router" = some gw ∧
    (metadata_port_ip = none → subnet.host_routes = [] →
      lookupOpt ((get_ovn_dhcp_options subnet network server_mac
        metadata_port_ip lease_time random_mac).options)
        "classless_static_route" = none) ∧
    (metadata_port_ip ≠ none ∨ subnet.host_routes ≠ [] →
      lookupOpt ((get_ovn_dhcp_options subnet network server_mac
        metadata_port_ip lease_time random_mac).options)
        "classless_static_route" =
      some ("\x7b" ++ metadataRoutePart metadata_port_ip ++
            joinAll (subnet.host_routes.map fmtRoute) ++
            "0.0.0.0/0," ++ gw ++ "\x7d")) := by
  obtain ⟨sid, cidr, ipv, en, gwo, dns, routes, v6m⟩ := subnet
  simp only at hdhcp hv hgw
  subst hdhcp hv hgw
  have htr : optStrTruthy (some gw) = true := by simp [optStrTruthy, bne, hne]
  simp only [get_ovn_dhcp_options, if_true, if_pos rfl, get_ovn_dhcpv4_opts,
    htr, Bool.not_true, Bool.false_eq_true, if_false, Option.getD,
    foldl_fmtRoute]
  rcases metadata_port_ip with _ | m
  · rcases routes with _ | ⟨r, rs⟩
    · rw [if_neg (by simp [metadataRoutePart, joinAll, String.append_empty])]
      refine ⟨?_, fun _ _ => ?_, fun h => ?_⟩
      · rcases dns with _ | ⟨d, ds⟩
        · rw [if_neg (by simp)]; rfl
        · rw [if_pos (by simp)]; rfl
      · rcases dns with _ | ⟨d, ds⟩
        · rw [if_neg (by simp)]; rfl
        · rw [if_pos (by simp)]; rfl
      · simp at h
    · have hjoin : joinAll (List.map fmtRoute (r :: rs)) ≠ "" := by
        have : joinAll (List.map fmtRoute (r :: rs)) =
            fmtRoute r ++ joinAll (List.map fmtRoute rs) := by
          simp [joinAll]
        rw [this]
        exact append_ne_empty_left _ _ (fmtRoute_ne_empty r)
      have hcond : ("\x7b" ++ metadataRoutePart none ++
          joinAll (List.map fmtRoute (r :: rs))) ≠ "\x7b" := by
        have hm : metadataRoutePart none = "" := rfl
        rw [hm, String.append_empty]
        exact brace_append_ne _ hjoin
      rw [if_pos hcond]
      refine ⟨?_, fun _ hr => ?_, fun _ => ?_⟩
      · rcases dns with _ | ⟨d, ds⟩
        · rw [if_neg (by simp)]; rfl
        · rw [if_pos (by simp)]; rfl
      · exact absurd hr (by simp)
      · rcases dns with _ | ⟨d, ds⟩
        · rw [if_neg (by simp)]
          have hlk : lookupOpt
              ([("server_id", gw), ("lease_time", lease_time),
                ("mtu", toString network.mtu), ("router", gw),
                ("server_mac", match server_mac with
                               | some m => m
                               | none => random_mac)] ++ [] ++
               [("classless_static_route",
                 "\x7b" ++ metadataRoutePart none ++
                 joinAll (List.map fmtRoute (r :: rs)) ++ "0.0.0.0/0," ++
                 gw ++ "\x7d")]) "classless_static_route" =
              some ("\x7b" ++ metadataRoutePart none ++
                joinAll (List.map fmtRoute (r :: rs)) ++ "0.0.0.0/0," ++
                gw ++ "\x7d") := rfl
          rw [hlk]
        · rw [if_pos (by simp)]
          have hlk : lookupOpt
              ([("server_id", gw), ("lease_time", lease_time),
                ("mtu", toString network.mtu), ("router", gw),
                ("server_mac", match server_mac with
                               | some m => m
                               | none => random_mac)] ++
               [("dns_server", "\x7b" ++ joinCommaSpace (d :: ds) ++ "\x7d")] ++
               [("classless_static_route",
                 "\x7b" ++ metadataRoutePart none ++
                 joinAll (List.map fmtRoute (r :: rs)) ++ "0.0.0.0/0," ++
                 gw ++ "\x7d")]) "classless_static_route" =
              some ("\x7b" ++ metadataRoutePart none ++
                joinAll (List.map fmtRoute (r :: rs)) ++ "0.0.0.0/0," ++
                gw ++ "\x7d") := rfl
          rw [hlk]
  · have hcond : ("\x7b" ++ metadataRoutePart (some m) ++
        joinAll (List.map fmtRoute routes)) ≠ "\x7b" := by
      rw [String.append_assoc]
      exact brace_append_ne _
        (append_ne_empty_left _ _ (metadataRoutePart_some_ne_empty m))
    rw [if_pos hcond]
    refine ⟨?_, fun hm => ?_, fun _ => ?_⟩
    · rcases dns with _ | ⟨d, ds⟩
      · rw [if_neg (by simp)]; rfl
      · rw [if_pos (by simp)]; rfl
    · exact absurd hm (by simp)
    · rcases dns with _ | ⟨d, ds⟩
      · rw [if_neg (by simp)]
        have hlk : lookupOpt
            ([("server_id", gw), ("lease_time", lease_time),
              ("mtu", toString network.mtu), ("router", gw),
              ("server_mac", match server_mac with
                             | some m => m
                             | none => random_mac)] ++ [] ++
             [("classless_static_route",
               "\x7b" ++ metadataRoutePart (some m) ++
               joinAll (List.map fmtRoute routes) ++ "0.0.0.0/0," ++
               gw ++ "\x7d")]) "classless_static_route" =
            some ("\x7b" ++ metadataRoutePart (some m) ++
              joinAll (List.map fmtRoute routes) ++ "0.0.0.0/0," ++
              gw ++ "\x7d") := rfl
        rw [hlk]
      · rw [if_pos (by simp)]
        have hlk : lookupOpt
            ([("server_id", gw), ("lease_time", lease_time),
              ("mtu", toString network.mtu), ("router", gw),
              ("server_mac", match server_mac with
                             | some m => m
                             | none => random_mac)] ++
             [("dns_server", "\x7b" ++ joinCommaSpace (d :: ds) ++ "\x7d")] ++
             [("classless_static_route",
               "\x7b" ++ metadataRoutePart (some m) ++
               joinAll (List.map fmtRoute routes) ++ "0.0.0.0/0," ++
               gw ++ "\x7d")]) "classless_static_route" =
            some ("\x7b" ++ metadataRoutePart (some m) ++
              joinAll (List.map fmtRoute routes) ++ "0.0.0.0/0," ++
              gw ++ "\x7d") := rfl
        rw [hlk]

end NetworkingOvn

namespace NetworkingOvn

/-- Witness for C7 at the spec's example: host route
`10.0.0.0/24 via 10.0.0.1` and gateway `192.168.0.1`, no metadata
injection: the option string is the host route followed by the trailing
default route, and the plain `router` option is still set. -/
theorem C7_dhcpv4_classless_route_structure_witness :
    lookupOpt ((get_ovn_dhcp_options
        ⟨"s2", "192.168.0.0/24", 4, true, some "192.168.0.1", [],
         [⟨"10.0.0.0/24", "10.0.0.1"⟩], none⟩
        ⟨"n1", 1500⟩ none none "43200" "01:02:03:04:05:06").options)
      "router" = some "192.168.0.1" ∧
    lookupOpt ((get_ovn_dhcp_options
        ⟨"s2", "192.168.0.0/24", 4, true, some "192.168.0.1", [],
         [⟨"10.0.0.0/24", "10.0.0.1"⟩], none⟩
        ⟨"n1", 1500⟩ none none "43200" "01:02:03:04:05:06").options)
      "classless_static_route" =
      some "\x7b10.0.0.0/24,10.0.0.1, 0.0.0.0/0,192.168.0.1\x7d" := by
  obtain ⟨h1, -, h3⟩ := C7_dhcpv4_classless_route_structure
    ⟨"s2", "192.168.0.0/24", 4, true, some "192.168.0.1", [],
     [⟨"10.0.0.0/24", "10.0.0.1"⟩], none⟩
    ⟨"n1", 1500⟩ none none "43200" "01:02:03:04:05:06" "192.168.0.1"
    rfl rfl rfl (by decide)
  refine ⟨h1, ?_⟩
  rw [h3 (Or.inr (by decide))]
  rfl

end NetworkingOvn

namespace NetworkingOvn

/-! ## DHCPv6 subnet-row selection (C6) -/

/-- A `DHCP_Options` row as returned by the external
`_nb_idl.get_subnets_dhcp_options`. -/
structure DhcpOptionsRow where
  uuid : String
  cidr : String
  options : List (String × String)
  deriving Repr, DecidableEq

/-- A row is DHCPv6-stateless when its `dhcpv6_stateless` option equals the
string `true` (exactly the marker `_get_ovn_dhcpv6_opts` writes). -/
def isStatelessV6Row (row : DhcpOptionsRow) : Bool :=
  lookupOpt row.options DHCPV6_STATELESS_OPT == some "true"

/-- `OVNClient._get_subnet_dhcp_options_for_port`: collect the subnet ids
of the port's fixed IPs of the requested version, query the external
`get_subnets_dhcp_options` (passed as a function), and select a row: for
IPv6 the first non-stateless (stateful) row if any, else the first row;
for other versions the first row. -/
def get_subnet_dhcp_options_for_port (fixed_ips : List FixedIp)
    (get_subnets_dhcp_options : List String → List DhcpOptionsRow)
    (ip_version : Nat) : Option DhcpOptionsRow :=
  let subnets := (List.filter (fun fi => fi.ip_address_version == ip_version)
    fixed_ips).map (fun fi => fi.subnet_id)
  match get_subnets_dhcp_options subnets with
  | [] => none
  | first :: rest =>
    if ip_version == 6 then
      match (first :: rest).find? (fun o => !(isStatelessV6Row o)) with
      | some o => some o
      | none => some first
    else
      some first

/-- C6: for IPv6, when the subnet-level lookup returns at least one
stateful (non-stateless) row, the selected row is stateful; only when
every returned row is stateless is the first returned row selected. -/
theorem C6_dhcpv6_prefers_stateful (fixed_ips : List FixedIp)
    (f : List String → List DhcpOptionsRow) (rows : List DhcpOptionsRow)
    (hrows : f ((List.filter (fun fi => fi.ip_address_version == 6)
      fixed_ips).map (fun fi => fi.subnet_id)) = rows) :
    ((∃ r ∈ rows, isStatelessV6Row r = false) →
      ∃ r', get_subnet_dhcp_options_for_port fixed_ips f 6 = some r' ∧
        isStatelessV6Row r' = false) ∧
    (∀ first rest, rows = first :: rest →
      (∀ r ∈ rows, isStatelessV6Row r = true) →
      get_subnet_dhcp_options_for_port fixed_ips f 6 = some first) := by
  simp only [get_subnet_dhcp_options_for_port]
  rw [hrows]
  cases rows with
  | nil =>
    refine ⟨?_, ?_⟩
    · rintro ⟨r, hr, -⟩
      exact absurd hr (List.not_mem_nil r)
    · intro first rest h
      exact absurd h (by simp)
  | cons a as =>
    refine ⟨?_, ?_⟩
    · rintro ⟨r, hr, hsr⟩
      have hsome : (List.find? (fun o => !(isStatelessV6Row o)) (a :: as)).isSome := by
        rw [List.find?_isSome]
        exact ⟨r, hr, by simp [hsr]⟩
      obtain ⟨r0, hr0⟩ := Option.isSome_iff_exists.mp hsome
      refine ⟨r0, by simp [hr0], ?_⟩
      have := List.find?_some hr0
      simpa using this
    · intro first rest hcons hall
      have hnone : List.find? (fun o => !(isStatelessV6Row o)) (a :: as) = none := by
        rw [List.find?_eq_none]
        intro x hx
        simp [hall x (hcons ▸ hx)]
      have ha : a = first := by
        injection hcons
      subst ha
      simp [hnone]

/-- Witness for C6: a stateless row listed first and a stateful row second;
the selection returns a stateful row. -/
theorem C6_dhcpv6_prefers_stateful_witness :
    ∃ r', get_subnet_dhcp_options_for_port [⟨"sub1", "2001:db8::5", 6⟩]
      (fun _ => [⟨"u1", "2001:db8::/64", [("dhcpv6_stateless", "true")]⟩,
                 ⟨"u2", "2001:db8:1::/64", [("server_id", "01:02:03:04:05:06")]⟩]) 6 =
      some r' ∧ isStatelessV6Row r' = false :=
  (C6_dhcpv6_prefers_stateful [⟨"sub1", "2001:db8::5", 6⟩]
    (fun _ => [⟨"u1", "2001:db8::/64", [("dhcpv6_stateless", "true")]⟩,
               ⟨"u2", "2001:db8:1::/64", [("server_id", "01:02:03:04:05:06")]⟩])
    [⟨"u1", "2001:db8::/64", [("dhcpv6_stateless", "true")]⟩,
     ⟨"u2", "2001:db8:1::/64", [("server_id", "01:02:03:04:05:06")]⟩] rfl).1
    ⟨⟨"u2", "2001:db8:1::/64", [("server_id", "01:02:03:04:05:06")]⟩,
     by simp, by decide⟩

end NetworkingOvn

namespace NetworkingOvn

/-! ## Allowed-address computation (C3) -/

/-- The consolidated own-address string of
`_get_allowed_addresses_from_port`: the port MAC followed by each fixed-IP
address, accumulated in list order. -/
def port_own_addresses (p : Port) : String :=
  p.fixed_ips.foldl (fun a ip => a ++ " " ++ ip.ip_address) p.mac_address

/-- The loop step over `allowed_address_pairs`: a pair with the port's own
MAC folds its IP into the consolidated string, any other pair becomes its
own `"<MAC> <IP>"` entry of the set. -/
def aapStep (mac : String) (st : String × Finset String) (pr : AAPair) :
    String × Finset String :=
  if pr.mac_address = mac then
    (st.1 ++ " " ++ pr.ip_address, st.2)
  else
    (st.1, insert (pr.mac_address ++ " " ++ pr.ip_address) st.2)

/-- `OVNClient._get_allowed_addresses_from_port`: the Python set of strings
returned (as a `Finset`); empty when port security is disabled or the port
is trusted. -/
def get_allowed_addresses_from_port (port : Port) : Finset String :=
  if !port.port_security_enabled then ∅
  else if is_lsp_trusted port then ∅
  else
    let result := port.allowed_address_pairs.foldl
      (aapStep port.mac_address) (port_own_addresses port, ∅)
    insert result.1 result.2

/-- The pair loop, characterized: the consolidated string accumulates the
IPs of the same-MAC pairs in order, and the set collects one entry per
different-MAC pair. -/
theorem aap_foldl_spec (mac : String) (pairs : List AAPair) (s : String)
    (A : Finset String) :
    pairs.foldl (aapStep mac) (s, A) =
      (s ++ joinAll ((pairs.filter
          (fun pr => pr.mac_address = mac)).map
          (fun pr => " " ++ pr.ip_address)),
       A ∪ ((pairs.filter (fun pr => ¬(pr.mac_address = mac))).map
          (fun pr => pr.mac_address ++ " " ++ pr.ip_address)).toFinset) := by
  induction pairs generalizing s A with
  | nil => simp [joinAll, String.append_empty]
  | cons pr rest ih =>
    by_cases h : pr.mac_address = mac
    · simp [aapStep, h, ih, joinAll, String.append_assoc]
    · simp [aapStep, h, ih, joinAll, Finset.insert_union, Finset.union_insert]

/-- C3 (amended): for a port-security-enabled, untrusted port the result is
the consolidated string `"<port-MAC> <own-ips...>"` with same-MAC pair IPs
folded in, plus one `"<MAC> <IP>"` entry per different-MAC pair; and any
permutation of `allowed_address_pairs` that keeps the same-MAC pairs in
their relative order yields the same final set. -/
theorem C3_allowed_addresses_structure_and_order (p : Port)
    (pairs' : List AAPair)
    (hsec : p.port_security_enabled = true)
    (htr : is_lsp_trusted p = false)
    (hperm : pairs'.Perm p.allowed_address_pairs)
    (hsame : pairs'.filter (fun pr => pr.mac_address = p.mac_address) =
      p.allowed_address_pairs.filter
        (fun pr => pr.mac_address = p.mac_address)) :
    get_allowed_addresses_from_port p =
      insert (port_own_addresses p ++
          joinAll ((p.allowed_address_pairs.filter
            (fun pr => pr.mac_address = p.mac_address)).map
            (fun pr => " " ++ pr.ip_address)))
        ((p.allowed_address_pairs.filter
            (fun pr => ¬(pr.mac_address = p.mac_address))).map
          (fun pr => pr.mac_address ++ " " ++ pr.ip_address)).toFinset ∧
    get_allowed_addresses_from_port
      { p with allowed_address_pairs := pairs' } =
      get_allowed_addresses_from_port p := by
  have hbody : ∀ q : Port, q.port_security_enabled = true →
      is_lsp_trusted q = false →
      get_allowed_addresses_from_port q =
        insert (port_own_addresses q ++
            joinAll ((q.allowed_address_pairs.filter
              (fun pr => pr.mac_address = q.mac_address)).map
              (fun pr => " " ++ pr.ip_address)))
          ((q.allowed_address_pairs.filter
              (fun pr => ¬(pr.mac_address = q.mac_address))).map
            (fun pr => pr.mac_address ++ " " ++ pr.ip_address)).toFinset := by
    intro q hq htq
    simp only [get_allowed_addresses_from_port, hq, htq, Bool.not_true,
      Bool.false_eq_true, if_false, aap_foldl_spec, Finset.empty_union]
  have htr' : is_lsp_trusted { p with allowed_address_pairs := pairs' } =
      is_lsp_trusted p := rfl
  refine ⟨hbody p hsec htr, ?_⟩
  rw [hbody p hsec htr, hbody { p with allowed_address_pairs := pairs' }
    hsec (htr' ▸ htr)]
  simp only
  rw [hsame]
  have hfperm : (pairs'.filter
      (fun pr => ¬(pr.mac_address = p.mac_address))).Perm
      (p.allowed_address_pairs.filter
        (fun pr => ¬(pr.mac_address = p.mac_address))) := by
    exact hperm.filter _
  have : ((pairs'.filter (fun pr => ¬(pr.mac_address = p.mac_address))).map
      (fun pr => pr.mac_address ++ " " ++ pr.ip_address)).toFinset =
      ((p.allowed_address_pairs.filter
        (fun pr => ¬(pr.mac_address = p.mac_address))).map
        (fun pr => pr.mac_address ++ " " ++ pr.ip_address)).toFinset :=
    List.toFinset_eq_of_perm _ _ (hfperm.map _)
  rw [this]
  rfl

end NetworkingOvn

namespace NetworkingOvn

/-- C3 counterexample: two same-MAC allowed-address pairs, given in the two
possible orders, are folded into different consolidated strings, so the
final sets differ although the pair lists are permutations of each other —
the computation is not order-insensitive as claimed. -/
theorem C3_order_insensitivity_counterexample :
    (Port.allowed_address_pairs
        ⟨true, "compute:nova", "fa:16:3e:00:00:01", [],
         [⟨"fa:16:3e:00:00:01", "10.0.0.3"⟩,
          ⟨"fa:16:3e:00:00:01", "10.0.0.2"⟩], []⟩).Perm
      (Port.allowed_address_pairs
        ⟨true, "compute:nova", "fa:16:3e:00:00:01", [],
         [⟨"fa:16:3e:00:00:01", "10.0.0.2"⟩,
          ⟨"fa:16:3e:00:00:01", "10.0.0.3"⟩], []⟩) ∧
    get_allowed_addresses_from_port
        ⟨true, "compute:nova", "fa:16:3e:00:00:01", [],
         [⟨"fa:16:3e:00:00:01", "10.0.0.3"⟩,
          ⟨"fa:16:3e:00:00:01", "10.0.0.2"⟩], []⟩ ≠
      get_allowed_addresses_from_port
        ⟨true, "compute:nova", "fa:16:3e:00:00:01", [],
         [⟨"fa:16:3e:00:00:01", "10.0.0.2"⟩,
          ⟨"fa:16:3e:00:00:01", "10.0.0.3"⟩], []⟩ := by
  constructor
  · decide
  · have h1 : get_allowed_addresses_from_port
        ⟨true, "compute:nova", "fa:16:3e:00:00:01", [],
         [⟨"fa:16:3e:00:00:01", "10.0.0.3"⟩,
          ⟨"fa:16:3e:00:00:01", "10.0.0.2"⟩], []⟩ =
        ({"fa:16:3e:00:00:01 10.0.0.3 10.0.0.2"} : Finset String) := rfl
    have h2 : get_allowed_addresses_from_port
        ⟨true, "compute:nova", "fa:16:3e:00:00:01", [],
         [⟨"fa:16:3e:00:00:01", "10.0.0.2"⟩,
          ⟨"fa:16:3e:00:00:01", "10.0.0.3"⟩], []⟩ =
        ({"fa:16:3e:00:00:01 10.0.0.2 10.0.0.3"} : Finset String) := rfl
    rw [h1, h2]
    decide

/-- Witness for C3 (amended) at a concrete port: swapping a different-MAC
pair past the single same-MAC pair leaves the final set unchanged. -/
theorem C3_allowed_addresses_structure_and_order_witness :
    get_allowed_addresses_from_port
        ⟨true, "compute:nova", "fa:16:3e:00:00:01",
         [⟨"sub", "10.0.0.4", 4⟩],
         [⟨"fa:16:3e:00:00:02", "10.0.0.9"⟩,
          ⟨"fa:16:3e:00:00:01", "10.0.0.2"⟩], []⟩ =
      get_allowed_addresses_from_port
        ⟨true, "compute:nova", "fa:16:3e:00:00:01",
         [⟨"sub", "10.0.0.4", 4⟩],
         [⟨"fa:16:3e:00:00:01", "10.0.0.2"⟩,
          ⟨"fa:16:3e:00:00:02", "10.0.0.9"⟩], []⟩ :=
  (C3_allowed_addresses_structure_and_order
    ⟨true, "compute:nova", "fa:16:3e:00:00:01",
     [⟨"sub", "10.0.0.4", 4⟩],
     [⟨"fa:16:3e:00:00:01", "10.0.0.2"⟩,
      ⟨"fa:16:3e:00:00:02", "10.0.0.9"⟩], []⟩
    [⟨"fa:16:3e:00:00:02", "10.0.0.9"⟩, ⟨"fa:16:3e:00:00:01", "10.0.0.2"⟩]
    rfl (by decide) (by decide) (by decide)).2

end NetworkingOvn

namespace NetworkingOvn

/-! ## Floating-IP NAT reconciliation (C2) -/

/-- A NAT rule row of a logical router; `nat_type` embeds the row's `type`
column (`snat` or `dnat_and_snat`). -/
structure NatRule where
  uuid : Nat
  nat_type : String
  logical_ip : String
  external_ip : String
  deriving Repr, DecidableEq

/-- The floating-IP payload passed to `_update_floatingip`. -/
structure FloatingIpDict where
  fip_port_id : String
  fip_net_id : String
  logical_ip : String
  external_ip : String
  deriving Repr, DecidableEq

/-- The search predicate of `_update_floatingip`: an existing rule whose
`external_ip` equals the floating IP and whose type is `dnat_and_snat`. -/
def natRuleMatchesFip (fip : FloatingIpDict) (r : NatRule) : Bool :=
  r.external_ip == fip.external_ip && r.nat_type == "dnat_and_snat"

/-- `_nb_idl.set_nat_rule_in_lrouter` semantics on the router's rule list:
set the columns of the row with the given uuid. -/
def set_nat_rule_in_lrouter (rules : List NatRule) (uuid : Nat)
    (fip : FloatingIpDict) : List NatRule :=
  rules.map (fun r =>
    if r.uuid = uuid then
      { r with nat_type := "dnat_and_snat", logical_ip := fip.logical_ip,
               external_ip := fip.external_ip }
    else r)

/-- `_nb_idl.add_nat_rule_in_lrouter` semantics: insert a new row, with a
fresh uuid chosen by the database. -/
def add_nat_rule_in_lrouter (rules : List NatRule) (new_uuid : Nat)
    (fip : FloatingIpDict) : List NatRule :=
  rules ++ [⟨new_uuid, "dnat_and_snat", fip.logical_ip, fip.external_ip⟩]

/-- The effect of `OVNClient._update_floatingip(..., associate=True)` on
the gateway router's NAT rule list: scan `get_lrouter_nat_rules` for a
`dnat_and_snat` rule with this external IP; if one is found, switch to
`set_nat_rule_in_lrouter` on that rule's uuid, else keep
`add_nat_rule_in_lrouter`. -/
def update_floatingip_associate (rules : List NatRule)
    (fip : FloatingIpDict) (new_uuid : Nat) : List NatRule :=
  match rules.find? (natRuleMatchesFip fip) with
  | some r => set_nat_rule_in_lrouter rules r.uuid fip
  | none => add_nat_rule_in_lrouter rules new_uuid fip

/-- C2: on a router whose NAT rows have distinct uuids, associating a
floating IP when exactly one `dnat_and_snat` rule with the same external
IP exists updates it in place — the matching-rule count stays exactly 1
and no row is inserted; only when no such rule exists is a new rule
appended (and then the count becomes 1). -/
theorem C2_fip_assoc_updates_in_place (rules : List NatRule)
    (fip : FloatingIpDict) (new_uuid : Nat)
    (hnodup : (rules.map (fun r => r.uuid)).Nodup) :
    (rules.countP (natRuleMatchesFip fip) = 1 →
      (update_floatingip_associate rules fip new_uuid).countP
        (natRuleMatchesFip fip) = 1 ∧
      (update_floatingip_associate rules fip new_uuid).length =
        rules.length) ∧
    (rules.countP (natRuleMatchesFip fip) = 0 →
      update_floatingip_associate rules fip new_uuid =
        rules ++ [⟨new_uuid, "dnat_and_snat", fip.logical_ip,
                   fip.external_ip⟩] ∧
      (update_floatingip_associate rules fip new_uuid).countP
        (natRuleMatchesFip fip) = 1) := by
  constructor
  · intro hone
    have hpos : 0 < rules.countP (natRuleMatchesFip fip) := by omega
    rw [List.countP_pos_iff] at hpos
    obtain ⟨x, hx, hpx⟩ := hpos
    have hsome : (rules.find? (natRuleMatchesFip fip)).isSome := by
      rw [List.find?_isSome]
      exact ⟨x, hx, hpx⟩
    obtain ⟨r, hr⟩ := Option.isSome_iff_exists.mp hsome
    have hrmem : r ∈ rules := List.mem_of_find?_eq_some hr
    have hrmatch : natRuleMatchesFip fip r = true := List.find?_some hr
    have hfilter : rules.filter (natRuleMatchesFip fip) = [r] := by
      have hlen : (rules.filter (natRuleMatchesFip fip)).length = 1 := by
        rw [← List.countP_eq_length_filter]
        exact hone
      obtain ⟨a, ha⟩ := List.length_eq_one.mp hlen
      have : r ∈ rules.filter (natRuleMatchesFip fip) :=
        List.mem_filter.mpr ⟨hrmem, hrmatch⟩
      rw [ha] at this
      simp only [List.mem_singleton] at this
      rw [ha, this]
    have hkey : ∀ x ∈ rules, natRuleMatchesFip fip x = true → x = r := by
      intro y hy hmy
      have : y ∈ rules.filter (natRuleMatchesFip fip) :=
        List.mem_filter.mpr ⟨hy, hmy⟩
      rw [hfilter] at this
      simpa using this
    unfold update_floatingip_associate
    rw [hr]
    constructor
    · unfold set_nat_rule_in_lrouter
      rw [List.countP_map]
      have hcongr : rules.countP
          ((natRuleMatchesFip fip) ∘ (fun x =>
            if x.uuid = r.uuid then
              { x with nat_type := "dnat_and_snat",
                       logical_ip := fip.logical_ip,
                       external_ip := fip.external_ip }
            else x)) =
          rules.countP (fun x => x.uuid == r.uuid) := by
        apply List.countP_congr
        intro y hy
        by_cases hyy : y.uuid = r.uuid
        · simp [hyy, natRuleMatchesFip, Function.comp]
        · have hnm : natRuleMatchesFip fip y = false := by
            by_contra hc
            rw [Bool.not_eq_false] at hc
            exact hyy (congrArg NatRule.uuid (hkey y hy hc))
          simp [hyy, Function.comp, hnm]
      rw [hcongr]
      have : rules.countP (fun x => x.uuid == r.uuid) =
          (rules.map (fun x => x.uuid)).countP (fun u => u == r.uuid) := by
        rw [List.countP_map]
        rfl
      rw [this, ← List.count_eq_countP]
      exact List.count_eq_one_of_mem hnodup
        (List.mem_map.mpr ⟨r, hrmem, rfl⟩)
    · unfold set_nat_rule_in_lrouter
      exact List.length_map _ _
  · intro hzero
    have hnone : rules.find? (natRuleMatchesFip fip) = none := by
      rw [List.find?_eq_none]
      intro y hy
      exact List.countP_eq_zero.mp hzero y hy
    unfold update_floatingip_associate
    rw [hnone]
    refine ⟨rfl, ?_⟩
    unfold add_nat_rule_in_lrouter
    rw [List.countP_append, hzero]
    simp [natRuleMatchesFip]

/-- Witness for C2: a router with one matching stale rule and one
unrelated SNAT rule — association keeps exactly one matching rule and the
row count — and a router with no matching rule — association appends
exactly the new rule. -/
theorem C2_fip_assoc_updates_in_place_witness :
    ((update_floatingip_associate
        [⟨1, "dnat_and_snat", "10.0.0.9", "172.24.4.8"⟩,
         ⟨2, "snat", "192.168.1.0/24", "172.24.4.2"⟩]
        ⟨"fp", "fn", "10.0.0.5", "172.24.4.8"⟩ 7).countP
      (natRuleMatchesFip ⟨"fp", "fn", "10.0.0.5", "172.24.4.8"⟩) = 1 ∧
     (update_floatingip_associate
        [⟨1, "dnat_and_snat", "10.0.0.9", "172.24.4.8"⟩,
         ⟨2, "snat", "192.168.1.0/24", "172.24.4.2"⟩]
        ⟨"fp", "fn", "10.0.0.5", "172.24.4.8"⟩ 7).length = 2) ∧
    update_floatingip_associate
        [⟨2, "snat", "192.168.1.0/24", "172.24.4.2"⟩]
        ⟨"fp", "fn", "10.0.0.5", "172.24.4.8"⟩ 7 =
      [⟨2, "snat", "192.168.1.0/24", "172.24.4.2"⟩,
       ⟨7, "dnat_and_snat", "10.0.0.5", "172.24.4.8"⟩] :=
  ⟨(C2_fip_assoc_updates_in_place
      [⟨1, "dnat_and_snat", "10.0.0.9", "172.24.4.8"⟩,
       ⟨2, "snat", "192.168.1.0/24", "172.24.4.2"⟩]
      ⟨"fp", "fn", "10.0.0.5", "172.24.4.8"⟩ 7 (by decide)).1 (by decide),
   ((C2_fip_assoc_updates_in_place
      [⟨2, "snat", "192.168.1.0/24", "172.24.4.2"⟩]
      ⟨"fp", "fn", "10.0.0.5", "172.24.4.8"⟩ 7 (by decide)).2
      (by decide)).1⟩

end NetworkingOvn

namespace NetworkingOvn

/-! ## Address-set maintenance on port update (C5) -/

/-- An `update_address_set` command enqueued in the transaction. -/
structure AddrSetUpdate where
  name : String
  addrs_add : Option (List String)
  addrs_remove : Option (List String)
  deriving Repr, DecidableEq

/-- Modelled from the spec: `ovn_acl.acl_port_ips`
(`networking_ovn/common/acl.py` is not under src) — the port-security IP
addresses of the port grouped per IP version, as the dict
`{'ip4': <v4 fixed-IP addresses>, 'ip6': <v6 fixed-IP addresses>}`. -/
def acl_port_ips (p : Port) : List (String × List String) :=
  [("ip4", (p.fixed_ips.filter (fun fi => fi.ip_address_version == 4)).map
      (fun fi => fi.ip_address)),
   ("ip6", (p.fixed_ips.filter (fun fi => fi.ip_address_version == 6)).map
      (fun fi => fi.ip_address))]

/-- Addresses of one IP version in an `acl_port_ips` dict. -/
def lookupIps (l : List (String × List String)) (k : String) : List String :=
  ((l.find? (fun p => p.1 == k)).map (fun p => p.2)).getD []

/-- The address-set refresh portion of `OVNClient.update_port`: the
`update_address_set` commands enqueued for attached, detached and (when
fixed IPs changed) unchanged security groups. Python sets of group ids are
embedded as deduplicated lists, and `(set(a) - set(b)) or None` as a
filtered list mapped to `none` when empty. -/
def update_port_addr_set_cmds (port original_port : Port) :
    List AddrSetUpdate :=
  let old_sg_ids := (get_lsp_security_groups original_port true).dedup
  let new_sg_ids := (get_lsp_security_groups port true).dedup
  let detached_sg_ids := old_sg_ids.filter (fun sg => ¬ sg ∈ new_sg_ids)
  let attached_sg_ids := new_sg_ids.filter (fun sg => ¬ sg ∈ old_sg_ids)
  let is_fixed_ips_updated := ¬ (original_port.fixed_ips = port.fixed_ips)
  if port.fixed_ips.length ≠ 0 ∨ original_port.fixed_ips.length ≠ 0 then
    let addresses := acl_port_ips port
    let addresses_old := acl_port_ips original_port
    (attached_sg_ids.flatMap (fun sg_id =>
      addresses.filterMap (fun v =>
        if v.2 ≠ [] then
          some ⟨ovn_addrset_name sg_id v.1, some v.2, none⟩
        else none))) ++
    (detached_sg_ids.flatMap (fun sg_id =>
      addresses_old.filterMap (fun v =>
        if v.2 ≠ [] then
          some ⟨ovn_addrset_name sg_id v.1, none, some v.2⟩
        else none))) ++
    (if is_fixed_ips_updated then
      (new_sg_ids.filter (fun sg => sg ∈ old_sg_ids)).flatMap (fun sg_id =>
        addresses.filterMap (fun v =>
          let old_ips : List String := lookupIps addresses_old v.1
          let addr_add : List String := v.2.filter (fun a => ¬ a ∈ old_ips)
          let addr_remove : List String := old_ips.filter (fun a => ¬ a ∈ v.2)
          if addr_add ≠ [] ∨ addr_remove ≠ [] then
            some ⟨ovn_addrset_name sg_id v.1,
                  if addr_add ≠ [] then some addr_add else none,
                  if addr_remove ≠ [] then some addr_remove else none⟩
          else none))
     else [])
  else []

end NetworkingOvn

namespace NetworkingOvn

/-- C5: moving an untrusted port from security-group set `{SG1}` to
`{SG2}` with unchanged, non-empty fixed IPs enqueues, per IP version with
addresses, exactly one AddressSet addition (the current addresses, to
SG2's set) and exactly one removal (the same addresses, from SG1's set),
and no other security group's AddressSet is written — the command list is
exactly these additions followed by these removals. -/
theorem C5_sg_move_minimal_addr_set_writes (port original_port : Port)
    (sg1 sg2 : String)
    (htp : is_lsp_trusted port = false)
    (hto : is_lsp_trusted original_port = false)
    (hso : original_port.security_groups = [sg1])
    (hsn : port.security_groups = [sg2])
    (hne : sg1 ≠ sg2)
    (hfix : original_port.fixed_ips = port.fixed_ips)
    (hnonempty : port.fixed_ips ≠ []) :
    update_port_addr_set_cmds port original_port =
      ((if lookupIps (acl_port_ips port) "ip4" ≠ [] then
          [⟨ovn_addrset_name sg2 "ip4",
            some (lookupIps (acl_port_ips port) "ip4"), none⟩]
        else []) ++
       (if lookupIps (acl_port_ips port) "ip6" ≠ [] then
          [⟨ovn_addrset_name sg2 "ip6",
            some (lookupIps (acl_port_ips port) "ip6"), none⟩]
        else [])) ++
      ((if lookupIps (acl_port_ips port) "ip4" ≠ [] then
          [⟨ovn_addrset_name sg1 "ip4", none,
            some (lookupIps (acl_port_ips port) "ip4")⟩]
        else []) ++
       (if lookupIps (acl_port_ips port) "ip6" ≠ [] then
          [⟨ovn_addrset_name sg1 "ip6", none,
            some (lookupIps (acl_port_ips port) "ip6")⟩]
        else [])) := by
  have hne' : sg2 ≠ sg1 := Ne.symm hne
  simp only [update_port_addr_set_cmds, get_lsp_security_groups, htp, hto,
    hso, hsn, Bool.and_false, Bool.false_eq_true, if_false, hfix]
  simp [hne, hne', hnonempty, lookupIps, acl_port_ips, List.filterMap, hfix]
  by_cases h4 : ∃ x ∈ port.fixed_ips, x.ip_address_version = 4 <;>
    by_cases h6 : ∃ x ∈ port.fixed_ips, x.ip_address_version = 6 <;>
    simp [h4, h6]

end NetworkingOvn

namespace NetworkingOvn

/-- Witness for C5: a dual-stack port moved from group `sg-a` to `sg-b`
with unchanged fixed IPs produces exactly one addition to `sg-b` and one
removal from `sg-a` per IP version. -/
theorem C5_sg_move_minimal_addr_set_writes_witness :
    update_port_addr_set_cmds
      ⟨true, "compute:nova", "fa:16:3e:00:00:01",
       [⟨"sub4", "10.0.0.5", 4⟩, ⟨"sub6", "2001:db8::5", 6⟩], [], ["sg-b"]⟩
      ⟨true, "compute:nova", "fa:16:3e:00:00:01",
       [⟨"sub4", "10.0.0.5", 4⟩, ⟨"sub6", "2001:db8::5", 6⟩], [], ["sg-a"]⟩ =
      [⟨ovn_addrset_name "sg-b" "ip4", some ["10.0.0.5"], none⟩,
       ⟨ovn_addrset_name "sg-b" "ip6", some ["2001:db8::5"], none⟩,
       ⟨ovn_addrset_name "sg-a" "ip4", none, some ["10.0.0.5"]⟩,
       ⟨ovn_addrset_name "sg-a" "ip6", none, some ["2001:db8::5"]⟩] := by
  rw [C5_sg_move_minimal_addr_set_writes
    ⟨true, "compute:nova", "fa:16:3e:00:00:01",
     [⟨"sub4", "10.0.0.5", 4⟩, ⟨"sub6", "2001:db8::5", 6⟩], [], ["sg-b"]⟩
    ⟨true, "compute:nova", "fa:16:3e:00:00:01",
     [⟨"sub4", "10.0.0.5", 4⟩, ⟨"sub6", "2001:db8::5", 6⟩], [], ["sg-a"]⟩
    "sg-a" "sg-b" (by decide) (by decide) rfl rfl (by decide) rfl
    (by decide)]
  rfl

end NetworkingOvn

namespace NetworkingOvn

/-! ## Exception propagation of the floating-IP operations (C1) -/

/-- A floating IP as read by `OVNL3RouterPlugin.disassociate_floatingips`:
`router_id` and `fixed_ip_address` may be absent. -/
structure FipRecord where
  id : String
  router_id : Option String
  fixed_ip_address : Option String
  floating_ip_address : String
  deriving Repr, DecidableEq

/-- `OVNClient._update_floatingip`: the transaction body (abstracted as
its outcome `inner`) is wrapped in `save_and_reraise_exception` — on
failure an error is logged and the same exception re-raised. Returns the
log lines and the outcome. -/
def client_update_floatingip (inner : Except String Unit) :
    List String × Except String Unit :=
  match inner with
  | .ok _ => ([], .ok ())
  | .error e =>
    (["Unable to update NAT rule in gateway router. Error: " ++ e],
     .error e)

/-- `OVNClient.disassociate_floatingip`: calls `_update_floatingip` with
`associate=False` inside another log-and-reraise wrapper. -/
def client_disassociate_floatingip (inner : Except String Unit) :
    List String × Except String Unit :=
  let r := client_update_floatingip inner
  match r.2 with
  | .ok _ => r
  | .error e =>
    (r.1 ++
     ["Unable to disassociate floating ip in gateway router. Error: " ++ e],
     .error e)

/-- `OVNL3RouterPlugin.disassociate_floatingips`: for each floating IP
with a router id and a fixed IP, call the client's disassociate; a failure
is caught and logged and the loop continues — the call then returns the
superclass's router ids normally. `fip_txn` abstracts the outcome of the
per-floating-IP OVN transaction. -/
def plugin_disassociate_floatingips (fips : List FipRecord)
    (router_ids : List String) (fip_txn : FipRecord → Except String Unit) :
    List String × Except String (List String) :=
  let logs := fips.foldl (fun logs fip =>
    match fip.router_id, fip.fixed_ip_address with
    | some _, some _ =>
      let r := client_disassociate_floatingip (fip_txn fip)
      match r.2 with
      | .ok _ => logs ++ r.1
      | .error e =>
        logs ++ r.1 ++
          ["Error in disassociating floatingip " ++ fip.id ++ ": " ++ e]
    | _, _ => logs) []
  (logs, .ok router_ids)

/-- C1 counterexample: a floating IP whose per-FIP OVN update fails; the
plugin's `disassociate_floatingips` returns normally (`ok`) after only
logging, so the failure is not re-raised to the caller as the claim
states. -/
theorem C1_disassociate_swallows_counterexample :
    (plugin_disassociate_floatingips
      [⟨"fip-1", some "r1", some "10.0.0.5", "172.24.4.8"⟩] ["r1"]
      (fun _ => .error "txn failed")).2 = .ok ["r1"] ∧
    (plugin_disassociate_floatingips
      [⟨"fip-1", some "r1", some "10.0.0.5", "172.24.4.8"⟩] ["r1"]
      (fun _ => .error "txn failed")).2 ≠ .error "txn failed" ∧
    (plugin_disassociate_floatingips
      [⟨"fip-1", some "r1", some "10.0.0.5", "172.24.4.8"⟩] ["r1"]
      (fun _ => .error "txn failed")).1 ≠ [] := by
  refine ⟨rfl, ?_, ?_⟩
  · intro h
    exact absurd h (by simp [plugin_disassociate_floatingips])
  · intro h
    exact absurd h (by simp [plugin_disassociate_floatingips,
      client_disassociate_floatingip, client_update_floatingip])

/-- C1 (amended): the OVNClient floating-IP operations log and re-raise
the inner transaction failure unchanged, but the L3 plugin's
`disassociate_floatingips` catches each per-floating-IP failure, logs it
and returns the router ids normally — it never re-raises. -/
theorem C1_floatingip_error_propagation (inner : Except String Unit)
    (e : String) (fips : List FipRecord) (router_ids : List String)
    (fip_txn : FipRecord → Except String Unit)
    (herr : inner = Except.error e) :
    (client_update_floatingip inner).2 = Except.error e ∧
    (client_update_floatingip inner).1 ≠ [] ∧
    (client_disassociate_floatingip inner).2 = Except.error e ∧
    (plugin_disassociate_floatingips fips router_ids fip_txn).2 =
      Except.ok router_ids := by
  subst herr
  refine ⟨rfl, by simp [client_update_floatingip], rfl, rfl⟩

/-- Witness for C1 (amended) at a concrete failing transaction. -/
theorem C1_floatingip_error_propagation_witness :
    (client_update_floatingip (Except.error "boom")).2 =
      Except.error "boom" ∧
    (client_update_floatingip (Except.error "boom")).1 ≠ [] ∧
    (client_disassociate_floatingip (Except.error "boom")).2 =
      Except.error "boom" ∧
    (plugin_disassociate_floatingips
      [⟨"fip-1", some "r1", some "10.0.0.5", "172.24.4.8"⟩] ["r1"]
      (fun _ => Except.error "boom")).2 = Except.ok ["r1"] :=
  C1_floatingip_error_propagation (Except.error "boom") "boom"
    [⟨"fip-1", some "r1", some "10.0.0.5", "172.24.4.8"⟩] ["r1"]
    (fun _ => Except.error "boom") rfl

end NetworkingOvn

namespace NetworkingOvn

/-! ## Gateway-chassis candidate computation (C4) -/

/-- Python character-level slicing `s[n:]`. -/
def pyDrop (s : String) (n : Nat) : String :=
  ⟨s.data.drop n⟩

/-- An external network as returned by
`get_networks(context, {external: [True]})`: provider network type and
optional physical-network binding. -/
structure ExtNetwork where
  id : String
  network_type : String
  physical_network : Option String
  deriving Repr, DecidableEq

/-- `OVNL3RouterPlugin._get_gateway_port_physnet_mapping`: networks of
type flat or VLAN contribute their physnet binding; every gateway port
(given as a (port id, network id) pair) maps to its network's physnet —
`none` for tunnel-only networks, which never enter `net_physnet_dict`. -/
def get_gateway_port_physnet_mapping (nets : List ExtNetwork)
    (gw_ports : List (String × String)) : List (String × Option String) :=
  let net_physnet : List (String × Option String) :=
    (nets.filter (fun n => n.network_type == "flat" ||
      n.network_type == "vlan")).map (fun n => (n.id, n.physical_network))
  gw_ports.map (fun p =>
    (p.1,
     ((net_physnet.find? (fun q => q.1 == p.2)).map (fun q => q.2)).getD none))

/-- The candidate filter of `schedule_unhosted_gateways`:
`[chassis for chassis, physnets in chassis_physnets.items() if physnet and
physnet in physnets]`. A falsy physnet (`None` or empty) admits no
chassis. -/
def gateway_candidates (physnet : Option String)
    (chassis_physnets : List (String × List String)) : List String :=
  (chassis_physnets.filter (fun cp =>
    match physnet with
    | none => false
    | some p => p != "" && cp.2.contains p)).map (fun cp => cp.1)

/-- Candidate computation for one unhosted gateway `g_name`
(`lrp-<port id>`): look up the physnet of the port (the name minus the
`lrp-` prefix) and filter the chassis inventory with it. -/
def schedule_unhosted_gateway_candidates
    (port_physnet_dict : List (String × Option String))
    (chassis_physnets : List (String × List String)) (g_name : String) :
    List String :=
  let physnet := ((port_physnet_dict.find?
    (fun q => q.1 == pyDrop g_name 4)).map (fun q => q.2)).getD none
  gateway_candidates physnet chassis_physnets

/-- C4 counterexample: a tunnel-only external network (no physnet
binding): its gateway port maps to `none` and the candidate list is empty
even though a gateway-capable chassis exists — not "all gateway-capable
chassis" as claimed. -/
theorem C4_tunnel_only_empty_candidates_counterexample :
    get_gateway_port_physnet_mapping
      [⟨"net-ext", "geneve", none⟩] [("p1", "net-ext")] = [("p1", none)] ∧
    schedule_unhosted_gateway_candidates [("p1", none)]
      [("ch1", ["physnet1"])] "lrp-p1" = [] ∧
    ([] : List String) ≠ ["ch1"] := by
  refine ⟨rfl, rfl, by simp⟩

/-- C4 (amended): with a nonempty flat/VLAN physnet binding the candidate
set is exactly the chassis advertising that physnet; with no binding
(tunnel-only network) the filter admits no chassis at all — the candidate
list is empty, not the full gateway-capable inventory. -/
theorem C4_gateway_candidates_physnet_filter (p : String) (hp : p ≠ "")
    (chassis_physnets : List (String × List String)) :
    gateway_candidates (some p) chassis_physnets =
      (chassis_physnets.filter (fun cp => cp.2.contains p)).map
        (fun cp => cp.1) ∧
    gateway_candidates none chassis_physnets = [] := by
  have hbne : (p != "") = true := by simp [bne, hp]
  constructor
  · simp [gateway_candidates, hbne]
  · simp [gateway_candidates]

/-- Witness for C4 (amended): two chassis, one advertising the required
physnet — it is the only candidate; with no binding there are none. -/
theorem C4_gateway_candidates_physnet_filter_witness :
    gateway_candidates (some "physnet1")
      [("ch1", ["physnet1"]), ("ch2", ["other"])] = ["ch1"] ∧
    gateway_candidates none [("ch1", ["physnet1"]), ("ch2", ["other"])] =
      [] := by
  obtain ⟨h1, h2⟩ := C4_gateway_candidates_physnet_filter "physnet1"
    (by decide) [("ch1", ["physnet1"]), ("ch2", ["other"])]
  exact ⟨by rw [h1]; rfl, h2⟩

end NetworkingOvn
